import Mathlib

/-!
Shallow embedding of the Preferential Bayesian Optimization core of
`preference_webapp` (active learning loop, GP strategy, acquisition
functions, model manager), translated from

  * `backend/active_learning_loop.py`  (class `ActiveLearningLoop`)
  * `backend/strategies/gp_strategy.py` (class `GPStrategy`)
  * `backend/model_manager.py`          (`train_model`)
  * `acquisition/acquisition.py`        (`RandomAcquisition`, `UCBAcquisition`, ...)
  * `backend/core/base_strategy.py`     (`LearningStrategy.is_trained`)

Modelling conventions:
  * Feature vectors are `List ℚ`; the feature matrix is `List (List ℚ)`.
  * Preference labels are integers; a label is "valid binary" exactly when
    it equals 0 or 1 (the source tests `pref not in [0, 1]`).
  * External collaborators that the core only calls through an opaque-value
    interface (the torch/gpytorch model object, the Lightning `trainer.fit`
    pipeline, the StandardScaler, the numpy random generator, and the
    `metrics.copeland_score` module, which is imported by
    `gp_strategy.py` but is not part of this repository tree) are bundled
    into a `Collab` record of abstract functions.  Claims about the core's
    orchestration are proved for every instantiation of those collaborators.
  * Python exceptions are modelled with `Except`; a raising method on a
    mutable object returns `.error (e, s)` where `s` is the state of the
    object at the moment of the raise (mutations performed before the raise
    are visible, exactly as in Python).
-/

/-- Python exceptions raised (or caught) by the core. -/
inductive PyErr : Type where
  | valueError (msg : String)
  | typeError (msg : String)
  | other (msg : String)
deriving DecidableEq, Repr

/-- A preference record as stored by the loop: `((i, j), label)`. -/
abbrev PrefRecord : Type := (Nat × Nat) × Int

/-- The source's validity test `pref in [0, 1]`. -/
def isValidLabel (p : Int) : Bool := p == 0 || p == 1

/-- One entry of `ActiveLearningLoop.ranking_history` (the dict built at
`active_learning_loop.py` lines 207-212). -/
structure Snapshot (α : Type) where
  iteration : Nat
  ranking : List Nat
  scores : List α
  top_k : List Nat
deriving DecidableEq, Repr

/-- Abstract collaborators of the core (torch model, Lightning training,
scaler, numpy rng, and the absent `metrics.copeland_score` module).
`M` = GP model object, `L` = likelihood object, `S` = scaler object,
`α` = the score scalar type. -/
structure Collab (M L S α : Type) where
  /-- `StandardScaler().fit(features)` - producing a fitted scaler object. -/
  fitScaler : List (List ℚ) → S
  /-- `scaler.transform(features)` - a pure function of the scaler object. -/
  transform : S → List (List ℚ) → List (List ℚ)
  /-- The Lightning training pipeline of `model_manager.train_model`
  (dataset, dataloader, `PreferenceGPModule`, `trainer.fit`), applied to
  the assembled `(X_train, y_train)` examples; it may raise. -/
  fit : List (List ℚ × Int) → Except PyErr (M × L)
  /-- `copeland_score(...)` followed by `np.argsort(-scores)`
  (`gp_strategy.py` lines 151-159): produces `(ranking, scores)` from the
  trained model and the scaled feature matrix.  `copeland_score` lives in
  a module outside this tree and `argsort` is numpy's. -/
  rankfn : M → L → List (List ℚ) → List Nat × List α
  /-- Posterior mean and stddev per row of the input matrix
  (`f_dist = model(Z); f_dist.mean, f_dist.stddev`). -/
  post : M → List (List ℚ) → List ℚ × List ℚ
  /-- `rng.choice(population, size=2, replace=False)` modelled as a pair of
  positions into the population, indexed by the draw number `k`. -/
  choose2 : Nat → Nat → Nat × Nat

/-- The contract numpy guarantees for `rng.choice(c, size=2, replace=False)`
on a population of size `n ≥ 2`: two distinct in-range positions. -/
def Choose2Ok (choose2 : Nat → Nat → Nat × Nat) : Prop :=
  ∀ k n, 2 ≤ n →
    (choose2 k n).1 < n ∧ (choose2 k n).2 < n ∧ (choose2 k n).1 ≠ (choose2 k n).2

/-- State of an `ActiveLearningLoop` object together with the state of its
owned `GPStrategy` (`model`, `likelihood`, `scaler` fields of the strategy). -/
structure LoopState (M L S α : Type) where
  preferences : List PrefRecord
  iteration : Nat
  ranking_history : List (Snapshot α)
  converged : Bool
  model : Option M
  likelihood : Option L
  strategy_scaler : Option S
  features : List (List ℚ)
  scaler : S
  n_masks : Nat
  max_iterations : Nat
  n_pairs_per_iteration : Nat
  convergence_window : Nat
  convergence_threshold : Nat
  top_k : Nat
  session_id : Option String

/-- `LearningStrategy.is_trained` (`base_strategy.py` line 146):
`self.model is not None`. -/
def isTrained {M L S α : Type} (s : LoopState M L S α) : Bool :=
  s.model.isSome

/-- `ActiveLearningLoop._check_convergence` (`active_learning_loop.py`
lines 348-379).  `history[-w:]` follows Python slice semantics: for
`w = 0` it is the whole list (the code only reaches the slice when
`len(history) ≥ w`). -/
def check_convergence {M L S α : Type} (s : LoopState M L S α) : Bool :=
  if s.max_iterations ≤ s.iteration then true
  else if s.ranking_history.length < s.convergence_window then false
  else
    let recent : List (List Nat) :=
      if s.convergence_window = 0 then s.ranking_history.map (fun h => h.top_k)
      else (s.ranking_history.drop
        (s.ranking_history.length - s.convergence_window)).map (fun h => h.top_k)
    let all_candidates : List Nat := recent.flatten
    let stable_count : Nat :=
      all_candidates.dedup.countP
        (fun c => s.convergence_threshold ≤ all_candidates.count c)
    decide (s.top_k ≤ stable_count)

/-- `numpy` vector subtraction `features[i] - features[j]` on rows. -/
def vecSub (v w : List ℚ) : List ℚ := List.zipWith (fun a b => a - b) v w

/-- `model_manager.train_model` (`model_manager.py` lines 33-140), with the
Lightning pipeline abstracted as `C.fit`.  Builds the difference-vector
training examples, skipping non-binary labels, and raises
`ValueError("No valid preference data found (all pairs may be ties)")`
when none remain. -/
def train_model {M L S α : Type} (C : Collab M L S α)
    (preferences : List PrefRecord) (features : List (List ℚ)) :
    Except PyErr (M × L) :=
  let examples : List (List ℚ × Int) :=
    preferences.filterMap (fun r =>
      if isValidLabel r.2 then
        some (vecSub (features.getD r.1.1 []) (features.getD r.1.2 []), r.2)
      else none)
  if examples.length = 0 then
    .error (.valueError "No valid preference data found (all pairs may be ties)")
  else
    C.fit examples

/-- `GPStrategy.train` (`gp_strategy.py` lines 67-112).  Returns the new
value of the strategy's `scaler` field (assigned *before* `train_model`
is called, so it survives a raise) together with the `train_model`
outcome.  When `scaler is None` a fresh scaler is fitted on `features`;
otherwise the provided one is stored.  Features are scaled with the
stored scaler before training. -/
def gpstrategy_train {M L S α : Type} (C : Collab M L S α)
    (preferences : List PrefRecord) (features : List (List ℚ))
    (scalerArg : Option S) : S × Except PyErr (M × L) :=
  let sc : S :=
    match scalerArg with
    | none => C.fitScaler features
    | some x => x
  let features_scaled := C.transform sc features
  (sc, train_model C preferences features_scaled)

/-- `GPStrategy.get_ranking` (`gp_strategy.py` lines 114-162): raises when
untrained, resolves the scaler (argument first, then the strategy's own
field), scales the features and computes `(ranking, scores)` through
`copeland_score` + `np.argsort(-scores)` (= `C.rankfn`). -/
def gpstrategy_get_ranking {M L S α : Type} (C : Collab M L S α)
    (model : Option M) (likelihood : Option L) (strategy_scaler : Option S)
    (features : List (List ℚ)) (scalerArg : Option S) :
    Except PyErr (List Nat × List α) :=
  match model, likelihood with
  | some m, some l =>
    match scalerArg, strategy_scaler with
    | some sc, _ =>
      .ok (C.rankfn m l (C.transform sc features))
    | none, some sc =>
      .ok (C.rankfn m l (C.transform sc features))
    | none, none =>
      .error (.valueError "No scaler available. Provide a scaler or train the model first.")
  | _, _ => .error (.valueError "Model not trained. Call train() first.")

/-- An acquisition function's `acquire` method, as called by
`GPStrategy.select_pairs`: may raise any Python exception. -/
abbrev AcquireFn (M L : Type) : Type :=
  M → L → List Nat → List (List ℚ) → Nat → Except PyErr (List (Nat × Nat))

/-- One draw `rng.choice(population, size=2, replace=False)` followed by
building the pair `(int(i), int(j))` from the drawn elements. -/
def drawPair (choose2 : Nat → Nat → Nat × Nat) (population : List Nat)
    (k : Nat) : Nat × Nat :=
  let p := choose2 k population.length
  (population.getD p.1 0, population.getD p.2 0)

/-- `RandomAcquisition.acquire` (`acquisition.py` lines 39-69): `n_pairs`
independent draws of two distinct members of `candidates`. -/
def random_acquire (choose2 : Nat → Nat → Nat × Nat)
    (candidates : List Nat) (n_pairs : Nat) : List (Nat × Nat) :=
  (List.range n_pairs).map (drawPair choose2 candidates)

/-- `GPStrategy.select_pairs` (`gp_strategy.py` lines 164-221): raises when
untrained or scaler-less; otherwise calls the acquisition function and, if
it raises anything, falls back to uniform-random pairs of the same count. -/
def select_pairs {M L S α : Type} (C : Collab M L S α)
    (model : Option M) (likelihood : Option L) (strategy_scaler : Option S)
    (features : List (List ℚ)) (acquisition_fn : AcquireFn M L)
    (n_pairs : Nat) : Except PyErr (List (Nat × Nat)) :=
  match model, likelihood with
  | some m, some l =>
    match strategy_scaler with
    | none => .error (.valueError "No scaler available. Train the model first.")
    | some sc =>
      let features_scaled := C.transform sc features
      let candidates := List.range features.length
      match acquisition_fn m l candidates features_scaled n_pairs with
      | .ok pairs => .ok pairs
      | .error _ =>
        .ok ((List.range n_pairs).map (drawPair C.choose2 candidates))
  | _, _ => .error (.valueError "Model not trained. Call train() first.")

/-- `ActiveLearningLoop.get_next_batch` (`active_learning_loop.py` lines
125-168): when `iteration == 0 or not strategy.is_trained()`, uses
`RandomAcquisition` over `list(range(n_masks))`; otherwise delegates to
the configured acquisition function through `strategy.select_pairs`. -/
def get_next_batch {M L S α : Type} (C : Collab M L S α)
    (s : LoopState M L S α) (acquisition_fn : AcquireFn M L)
    (n_pairs_arg : Option Nat) : Except PyErr (List (Nat × Nat)) :=
  let n_pairs := n_pairs_arg.getD s.n_pairs_per_iteration
  if s.iteration = 0 ∨ ¬ isTrained s then
    .ok (random_acquire C.choose2 (List.range s.n_masks) n_pairs)
  else
    select_pairs C s.model s.likelihood s.strategy_scaler s.features
      acquisition_fn n_pairs

/-- `ActiveLearningLoop._retrain` (`active_learning_loop.py` lines
336-346): skips silently when no preferences are accumulated; otherwise
calls `strategy.train(preferences, features, scaler)` (which mutates the
strategy's `scaler` field, then its `model`/`likelihood` fields on
success).  Returns the resulting loop state plus the raised exception,
if any. -/
def retrain {M L S α : Type} (C : Collab M L S α)
    (s : LoopState M L S α) : LoopState M L S α × Option PyErr :=
  if s.preferences.length = 0 then (s, none)
  else
    let r := gpstrategy_train C s.preferences s.features (some s.scaler)
    match r.2 with
    | .ok ml =>
      ({ s with strategy_scaler := some r.1,
                model := some ml.1, likelihood := some ml.2 }, none)
    | .error e => ({ s with strategy_scaler := some r.1 }, some e)

/-- `ActiveLearningLoop.add_preferences` (`active_learning_loop.py` lines
170-223).  On a raise, the partially mutated loop state accompanies the
exception.  The auto-backup step only performs external I/O and does not
change loop state, so it is not modelled. -/
def add_preferences {M L S α : Type} (C : Collab M L S α)
    (s : LoopState M L S α) (pairs : List (Nat × Nat)) (labels : List Int) :
    Except (PyErr × LoopState M L S α) (LoopState M L S α) :=
  if pairs.length ≠ labels.length then
    .error (.valueError "Number of pairs must match number of preferences", s)
  else
    let valid := (pairs.zip labels).filter (fun r => isValidLabel r.2)
    let s1 := { s with preferences := s.preferences ++ valid }
    let r := retrain C s1
    match r.2 with
    | some e => .error (e, r.1)
    | none =>
      let s3 := { r.1 with iteration := r.1.iteration + 1 }
      match gpstrategy_get_ranking C s3.model s3.likelihood s3.strategy_scaler
          s3.features (some s3.scaler) with
      | .error e => .error (e, s3)
      | .ok rs =>
        let snap : Snapshot α :=
          { iteration := s3.iteration, ranking := rs.1, scores := rs.2,
            top_k := rs.1.take s3.top_k }
        let s4 := { s3 with ranking_history := s3.ranking_history ++ [snap] }
        .ok { s4 with converged := check_convergence s4 }

/-- `ActiveLearningLoop.get_ranking` (`active_learning_loop.py` lines
225-239): raises `ValueError("Model not trained. Add preferences
first.")` when the strategy is untrained, else delegates with the loop's
features and scaler. -/
def loop_get_ranking {M L S α : Type} (C : Collab M L S α)
    (s : LoopState M L S α) : Except PyErr (List Nat × List α) :=
  if ¬ isTrained s then
    .error (.valueError "Model not trained. Add preferences first.")
  else
    gpstrategy_get_ranking C s.model s.likelihood s.strategy_scaler
      s.features (some s.scaler)

/-- `ActiveLearningLoop.has_converged` (`active_learning_loop.py` lines
241-252). -/
def has_converged {M L S α : Type} (s : LoopState M L S α) : Bool :=
  s.converged

/-- The dictionary returned by `ActiveLearningLoop.get_progress`
(`active_learning_loop.py` lines 254-279). -/
structure Progress (α : Type) where
  iteration : Nat
  total_comparisons : Nat
  max_iterations : Nat
  converged : Bool
  ranking : Option (List Nat)
  scores : Option (List α)
  top_k : Option (List Nat)

/-- `ActiveLearningLoop.get_progress`: `total_comparisons` is
`len(self.preferences)`; ranking fields are filled only when the
strategy is trained. -/
def get_progress {M L S α : Type} (C : Collab M L S α)
    (s : LoopState M L S α) : Progress α :=
  let rk : Option (List Nat × List α) :=
    if isTrained s then (loop_get_ranking C s).toOption else none
  { iteration := s.iteration,
    total_comparisons := s.preferences.length,
    max_iterations := s.max_iterations,
    converged := s.converged,
    ranking := rk.map (fun p => p.1),
    scores := rk.map (fun p => p.2),
    top_k := rk.map (fun p => p.1.take s.top_k) }

/-- The state of the loop object after a call, whether it returned
normally or raised (Python objects keep the mutations made before a
raise). -/
def afterCall {M L S α : Type}
    (r : Except (PyErr × LoopState M L S α) (LoopState M L S α)) :
    LoopState M L S α :=
  match r with
  | .ok s => s
  | .error e => e.2

/-- Iterated `add_preferences` calls on one loop object.  As in Python, a
call that raises leaves the object in its partially mutated state, and
the caller may keep going with further calls. -/
def run_calls {M L S α : Type} (C : Collab M L S α) :
    LoopState M L S α → List (List (Nat × Nat) × List Int) → LoopState M L S α
  | s, [] => s
  | s, c :: rest => run_calls C (afterCall (add_preferences C s c.1 c.2)) rest

/-- Descending insertion of an index into an index list already sorted by
score (part of the `np.argsort(-ucb_scores)` step of `UCBAcquisition`). -/
def argsortInsert (xs : List ℚ) (i : Nat) : List Nat → List Nat
  | [] => [i]
  | j :: rest =>
    if xs.getD j 0 < xs.getD i 0 then i :: j :: rest
    else j :: argsortInsert xs i rest

/-- `np.argsort(-xs)`: indices of `xs` ordered by descending value.  The
order among equal values is an implementation detail of numpy's default
(unstable) sort; in `UCBAcquisition.acquire` the result only feeds an
indexing step whose outcome does not depend on that order. -/
def argsortDesc (xs : List ℚ) : List Nat :=
  (List.range xs.length).foldr (argsortInsert xs) []

/-- A value that is a Python `list` or a numpy `ndarray` of naturals.  The
`candidates` argument of the acquisition functions is typed
`List[int]` and every caller in the tree builds it with
`list(range(...))`, i.e. the `list` variant. -/
inductive PySeq : Type where
  | pylist (xs : List Nat)
  | ndarray (xs : List Nat)
deriving DecidableEq, Repr

/-- The underlying elements. -/
def PySeq.toList : PySeq → List Nat
  | .pylist xs => xs
  | .ndarray xs => xs

/-- Subscripting a Python sequence with a numpy index array
(`candidates[np.argsort(-ucb_scores)]`): fancy indexing works on an
`ndarray`, but a plain Python `list` raises
`TypeError: only integer scalar arrays can be converted to a scalar
index`.  (The modelled index arrays here always have length ≥ 2; a
length-1 index array may instead be scalar-converted by old numpy
versions, a case no claim depends on.) -/
def indexByArray (xs : PySeq) (idxs : List Nat) : Except PyErr (List Nat) :=
  match xs with
  | .pylist _ =>
    .error (.typeError "only integer scalar arrays can be converted to a scalar index")
  | .ndarray v => .ok (idxs.map (fun i => v.getD i 0))

/-- `UCBAcquisition.acquire` (`acquisition.py` lines 171-221): UCB scores
are `mean + beta * std` at each candidate's feature row; the candidates
are then reordered by descending score via
`sorted_indices = candidates[np.argsort(-ucb_scores)]` and `n_pairs`
random pairs are drawn from the first `min(2*n_pairs, len(sorted_indices))`
entries. -/
def ucb_acquire {M L S α : Type} (C : Collab M L S α) (m : M) (l : L)
    (candidates : PySeq) (features : List (List ℚ)) (n_pairs : Nat)
    (beta : ℚ) (choose2 : Nat → Nat → Nat × Nat) :
    Except PyErr (List (Nat × Nat)) :=
  let Z := candidates.toList.map (fun c => features.getD c [])
  let p := C.post m Z
  let ucb_scores := List.zipWith (fun mu sd => mu + beta * sd) p.1 p.2
  match indexByArray candidates (argsortDesc ucb_scores) with
  | .error e => .error e
  | .ok sorted_indices =>
    let top := min (n_pairs * 2) sorted_indices.length
    .ok ((List.range n_pairs).map (drawPair choose2 (sorted_indices.take top)))

/-- The convergence count in the words of the specification: the number of
distinct candidates that appear in at least `threshold` of the given
top-K lists (membership per list, not occurrence count). -/
def specStableCount (recent : List (List Nat)) (threshold : Nat) : Nat :=
  recent.flatten.dedup.countP
    (fun c => threshold ≤ recent.countP (fun l => c ∈ l))

/-- The last `w` elements of a list (the mathematical reading of "the last
`convergence_window` snapshots"). -/
def lastN {β : Type} (w : Nat) (xs : List β) : List β :=
  xs.drop (xs.length - w)

/-- `ActiveLearningLoop.__init__` (`active_learning_loop.py` lines 57-123),
with the already-encoded raw feature matrix as input (the encoder is an
external collaborator): fit the scaler once on the full batch, store
`fit_transform`-ed features, and start with an untrained strategy. -/
def init_loop {M L S α : Type} (C : Collab M L S α)
    (raw_features : List (List ℚ))
    (max_iterations n_pairs_per_iteration convergence_window
      convergence_threshold top_k : Nat) : LoopState M L S α :=
  let sc := C.fitScaler raw_features
  { preferences := [],
    iteration := 0,
    ranking_history := [],
    converged := false,
    model := none,
    likelihood := none,
    strategy_scaler := none,
    features := C.transform sc raw_features,
    scaler := sc,
    n_masks := raw_features.length,
    max_iterations := max_iterations,
    n_pairs_per_iteration := n_pairs_per_iteration,
    convergence_window := convergence_window,
    convergence_threshold := convergence_threshold,
    top_k := top_k,
    session_id := none }

/-- A concrete instantiation of the abstract collaborators, used to
evaluate the embedding on closed inputs: training always succeeds, the
ranking collaborator returns the identity permutation, and every random
draw picks positions 0 and 1. -/
def trivCollab : Collab Unit Unit Unit Unit where
  fitScaler := fun _ => ()
  transform := fun _ m => m
  fit := fun _ => .ok ((), ())
  rankfn := fun _ _ fs => (List.range fs.length, fs.map (fun _ => ()))
  post := fun _ rows => (rows.map (fun _ => 0), rows.map (fun _ => 0))
  choose2 := fun _ _ => (0, 1)

/-- A collaborator whose Lightning training pipeline always raises. -/
def trivCollabFail : Collab Unit Unit Unit Unit :=
  { trivCollab with fit := fun _ => .error (.other "training diverged") }

/-- A concrete loop state over four candidates with the given preference
list, iteration counter, history, (un)trained strategy and convergence
configuration. -/
def baseState (prefs : List PrefRecord) (iter : Nat)
    (hist : List (Snapshot Unit)) (model : Option Unit)
    (maxIter window th topk : Nat) : LoopState Unit Unit Unit Unit :=
  { preferences := prefs,
    iteration := iter,
    ranking_history := hist,
    converged := false,
    model := model,
    likelihood := model,
    strategy_scaler := model,
    features := [[0], [0], [0], [0]],
    scaler := (),
    n_masks := 4,
    max_iterations := maxIter,
    n_pairs_per_iteration := 10,
    convergence_window := window,
    convergence_threshold := th,
    top_k := topk,
    session_id := none }

/-- A history entry carrying only its top-K list (ranking and scores are
irrelevant to the convergence check). -/
def snapOf (tk : List Nat) : Snapshot Unit :=
  { iteration := 0, ranking := [], scores := [], top_k := tk }

/-- The concrete scenario of the specification's convergence example:
`convergence_window = 3`, `convergence_threshold = 2`, `top_k = 2`, far
from the iteration cap, with top-K histories `[1,2]`, `[1,3]`, `[1,2]`. -/
def convergenceScenarioState : LoopState Unit Unit Unit Unit :=
  baseState [] 3 [snapOf [1, 2], snapOf [1, 3], snapOf [1, 2]] none 100 3 2 2

/-- `filterMap` with an if-then-else body is `filter` followed by `map`
(the shape of the training-example loop in `train_model`). -/
theorem filterMap_ite_eq_map_filter {β γ : Type} (p : β → Bool) (g : β → γ) :
    ∀ l : List β,
      l.filterMap (fun r => if p r then some (g r) else none) =
        (l.filter p).map g
  | [] => rfl
  | a :: t => by
    by_cases h : p a <;>
      simp [List.filterMap_cons, List.filter_cons, h,
        filterMap_ite_eq_map_filter p g t]

/-- Over duplicate-free lists, counting occurrences of `c` in the
concatenation equals counting the lists that contain `c` (the bridge
between `Counter` over the flattened window and the specification's
"appears in at least `threshold` of those lists"). -/
theorem count_flatten_eq_countP_mem (c : Nat) :
    ∀ ls : List (List Nat), (∀ l ∈ ls, l.Nodup) →
      ls.flatten.count c = ls.countP (fun l => c ∈ l)
  | [], _ => rfl
  | a :: t, h => by
    have ha : a.Nodup := h a (List.mem_cons_self a t)
    have ht : ∀ l ∈ t, l.Nodup := fun l hl => h l (List.mem_cons_of_mem a hl)
    have hcount : a.count c = if c ∈ a then 1 else 0 := by
      by_cases hm : c ∈ a
      · have h1 : a.count c ≤ 1 := List.nodup_iff_count_le_one.mp ha c
        have h2 : 0 < a.count c := List.count_pos_iff.mpr hm
        simp [hm]; omega
      · simp [hm, List.count_eq_zero_of_not_mem hm]
    simp only [List.flatten_cons, List.count_append, List.countP_cons,
      count_flatten_eq_countP_mem c t ht, hcount]
    by_cases hm : c ∈ a <;> simp [hm] <;> omega

/-- A random draw over the population `list(range(n))` with `n ≥ 2` yields
a pair of two distinct candidate indices below `n`. -/
theorem drawPair_range_ok (choose2 : Nat → Nat → Nat × Nat)
    (hch : Choose2Ok choose2) (n k : Nat) (hn : 2 ≤ n) :
    (drawPair choose2 (List.range n) k).1 < n ∧
    (drawPair choose2 (List.range n) k).2 < n ∧
    (drawPair choose2 (List.range n) k).1 ≠ (drawPair choose2 (List.range n) k).2 :=
  by
  obtain ⟨h1, h2, hne⟩ := hch k n hn
  have hr1 : (List.range n).getD (choose2 k n).1 0 = (choose2 k n).1 := by
    simp [List.getD, List.getElem?_range h1]
  have hr2 : (List.range n).getD (choose2 k n).2 0 = (choose2 k n).2 := by
    simp [List.getD, List.getElem?_range h2]
  refine ⟨?_, ?_, ?_⟩ <;>
    simp [drawPair, List.length_range, hr1, hr2, h1, h2, hne]

/-- `_retrain` only ever touches the strategy's `scaler`, `model` and
`likelihood` fields; every loop-level field is untouched. -/
theorem retrain_shape {M L S α : Type} (C : Collab M L S α)
    (s : LoopState M L S α) :
    ∃ sc m l, (retrain C s).1 =
      { s with strategy_scaler := sc, model := m, likelihood := l } := by
  by_cases h0 : s.preferences.length = 0
  · exact ⟨s.strategy_scaler, s.model, s.likelihood, by simp [retrain, h0]⟩
  · cases hr : (gpstrategy_train C s.preferences s.features (some s.scaler)).2 with
    | ok ml =>
      exact ⟨some (gpstrategy_train C s.preferences s.features (some s.scaler)).1,
        some ml.1, some ml.2, by simp [retrain, h0, hr]⟩
    | error e2 =>
      exact ⟨some (gpstrategy_train C s.preferences s.features (some s.scaler)).1,
        s.model, s.likelihood, by simp [retrain, h0, hr]⟩

/-- When `_retrain` raises (the training pipeline or `train_model`
raised), the strategy's `model` and `likelihood` fields keep their
previous values: the `self.model, self.likelihood = train_model(...)`
assignment never ran. -/
theorem retrain_error_keeps_model {M L S α : Type} (C : Collab M L S α)
    (s : LoopState M L S α) (e : PyErr) (h : (retrain C s).2 = some e) :
    (retrain C s).1.model = s.model ∧
    (retrain C s).1.likelihood = s.likelihood := by
  by_cases h0 : s.preferences.length = 0
  · simp [retrain, h0]
  · cases hr : (gpstrategy_train C s.preferences s.features (some s.scaler)).2 with
    | ok ml => simp [retrain, h0, hr] at h
    | error e2 => simp [retrain, h0, hr]

/-- `_check_convergence` never reads the `converged` field. -/
theorem check_convergence_converged_irrel {M L S α : Type}
    (s : LoopState M L S α) (b : Bool) :
    check_convergence { s with converged := b } = check_convergence s := rfl

/-- Shape of a successful `add_preferences` call: the valid (binary)
labels are appended to the preference set, the iteration counter moves
up by one, the loop's feature matrix and scaler are untouched, and the
`converged` flag is exactly `_check_convergence` of the resulting
state. -/
theorem add_preferences_ok_fields {M L S α : Type} (C : Collab M L S α)
    (s : LoopState M L S α) (pairs : List (Nat × Nat)) (labels : List Int)
    (s' : LoopState M L S α)
    (hok : add_preferences C s pairs labels = .ok s') :
    s'.preferences =
        s.preferences ++ (pairs.zip labels).filter (fun r => isValidLabel r.2) ∧
    s'.iteration = s.iteration + 1 ∧
    s'.max_iterations = s.max_iterations ∧
    s'.features = s.features ∧
    s'.scaler = s.scaler ∧
    s'.converged = check_convergence s' := by
  by_cases hlen : pairs.length = labels.length
  · simp only [add_preferences] at hok
    rw [if_neg (fun h => h hlen)] at hok
    obtain ⟨sc, m, l, hshape⟩ := retrain_shape C
      { s with preferences :=
          s.preferences ++ (pairs.zip labels).filter (fun r => isValidLabel r.2) }
    split at hok
    · exact absurd hok (by simp)
    · split at hok
      · exact absurd hok (by simp)
      · simp only [Except.ok.injEq] at hok
        subst hok
        rw [hshape]
        refine ⟨rfl, rfl, rfl, rfl, rfl, rfl⟩
  · rw [add_preferences, if_pos hlen] at hok
    exact absurd hok (by simp)

/-- The contract holds for the concrete draw function of `trivCollab`. -/
theorem trivChoose2Ok : Choose2Ok trivCollab.choose2 :=
  fun _ n hn =>
    ⟨show 0 < n by omega, show 1 < n by omega, show (0 : Nat) ≠ 1 by decide⟩

/-- C6: model training filters out tie records first and raises the
`InvalidInput` condition (`ValueError`) exactly when no valid binary
record remains; with at least one valid record it builds the
feature-difference training examples and hands them to the fitting
pipeline. -/
theorem train_model_tie_filtering {M L S α : Type} (C : Collab M L S α)
    (prefs : List PrefRecord) (features : List (List ℚ)) :
    ((∀ r ∈ prefs, isValidLabel r.2 = false) →
      train_model C prefs features =
        .error (.valueError "No valid preference data found (all pairs may be ties)")) ∧
    ((∃ r ∈ prefs, isValidLabel r.2 = true) →
      train_model C prefs features =
        C.fit ((prefs.filter (fun r => isValidLabel r.2)).map
          (fun r => (vecSub (features.getD r.1.1 [])
            (features.getD r.1.2 []), r.2)))) := by
  have hfm := filterMap_ite_eq_map_filter (fun r : PrefRecord => isValidLabel r.2)
    (fun r => (vecSub (features.getD r.1.1 []) (features.getD r.1.2 []), r.2)) prefs
  constructor
  · intro hall
    have hnil : prefs.filter (fun r => isValidLabel r.2) = [] := by
      rw [List.filter_eq_nil_iff]
      intro a ha
      simp [hall a ha]
    simp only [train_model]
    rw [hfm, hnil]
    simp
  · rintro ⟨r, hr, hv⟩
    have hne : prefs.filter (fun r => isValidLabel r.2) ≠ [] := by
      intro h
      have := (List.filter_eq_nil_iff.mp h) r hr
      simp [hv] at this
    have hlen : ((prefs.filter (fun r => isValidLabel r.2)).map
        (fun r => (vecSub (features.getD r.1.1 [])
          (features.getD r.1.2 []), r.2))).length ≠ 0 := by
      simpa [List.length_eq_zero] using hne
    simp only [train_model, hfm]
    rw [if_neg hlen]

/-- Witness for C6: with two tie labels training raises; with a valid
label present it proceeds to the fit on the difference vectors. -/
theorem train_model_tie_filtering_witness :
    train_model trivCollab [((0, 1), 2), ((1, 0), 5)] [[1], [2]] =
      .error (.valueError "No valid preference data found (all pairs may be ties)") ∧
    train_model trivCollab [((0, 1), 2), ((0, 1), 1)] [[1], [2]] =
      trivCollab.fit [(vecSub [1] [2], 1)] := by
  constructor
  · exact (train_model_tie_filtering trivCollab [((0, 1), 2), ((1, 0), 5)]
      [[1], [2]]).1 (by decide)
  · have h := (train_model_tie_filtering trivCollab [((0, 1), 2), ((0, 1), 1)]
      [[1], [2]]).2 ⟨((0, 1), 1), by simp, by decide⟩
    simpa using h

/-- Counterexample for C2: one valid label and one tie label are
submitted; after the call `get_progress` reports `total_comparisons = 1`
(the tie was dropped from the count), not `2` as the claim
("includes the dropped tie entries") requires. -/
theorem tie_not_counted_in_total_comparisons :
    ∃ s', add_preferences trivCollab (baseState [] 0 [] none 100 5 4 5)
        [(0, 1), (2, 3)] [1, 2] = .ok s' ∧
      (get_progress trivCollab s').total_comparisons = 1 ∧
      ¬ (get_progress trivCollab s').total_comparisons = 2 :=
  ⟨_, rfl, rfl, by decide⟩

/-- C2 (amended): of each `add_preferences` batch exactly the valid
binary labels are appended to the training set; `total_comparisons`
as reported by `get_progress` counts only the accumulated valid
records (dropped ties are not counted), while the iteration counter
advances once per call. -/
theorem add_preferences_tie_bookkeeping {M L S α : Type} (C : Collab M L S α)
    (s : LoopState M L S α) (pairs : List (Nat × Nat)) (labels : List Int)
    (s' : LoopState M L S α)
    (hok : add_preferences C s pairs labels = .ok s') :
    s'.preferences =
        s.preferences ++ (pairs.zip labels).filter (fun r => isValidLabel r.2) ∧
    (get_progress C s').total_comparisons =
        s.preferences.length +
          (pairs.zip labels).countP (fun r => isValidLabel r.2) ∧
    s'.iteration = s.iteration + 1 := by
  obtain ⟨hp, hi, -, -, -, -⟩ := add_preferences_ok_fields C s pairs labels s' hok
  refine ⟨hp, ?_, hi⟩
  show s'.preferences.length = _
  rw [hp, List.length_append, List.countP_eq_length_filter]

/-- Witness for C2 (amended): a batch of one valid preference and one
tie, starting from a fresh loop. -/
theorem add_preferences_tie_bookkeeping_witness :
    ∃ s', add_preferences trivCollab (baseState [] 0 [] none 100 5 4 5)
        [(0, 1), (2, 3)] [1, 2] = .ok s' ∧
      s'.preferences =
          (baseState [] 0 [] none 100 5 4 5).preferences ++
            ([(0, 1), (2, 3)].zip [1, 2]).filter (fun r => isValidLabel r.2) ∧
      (get_progress trivCollab s').total_comparisons =
          (baseState [] 0 [] none 100 5 4 5).preferences.length +
            ([(0, 1), (2, 3)].zip [1, 2]).countP (fun r => isValidLabel r.2) ∧
      s'.iteration = (baseState [] 0 [] none 100 5 4 5).iteration + 1 :=
  ⟨_, rfl, add_preferences_tie_bookkeeping trivCollab
    (baseState [] 0 [] none 100 5 4 5) [(0, 1), (2, 3)] [1, 2] _ rfl⟩

/-- C7: when model training raises inside `add_preferences`, the loop
object keeps its previous model, likelihood and ranking history, and
the iteration counter is not incremented (the exception propagates
before those updates). -/
theorem add_preferences_atomic_on_train_failure {M L S α : Type}
    (C : Collab M L S α) (s : LoopState M L S α)
    (pairs : List (Nat × Nat)) (labels : List Int) (e : PyErr)
    (hlen : pairs.length = labels.length)
    (hne : s.preferences ++ (pairs.zip labels).filter
        (fun r => isValidLabel r.2) ≠ [])
    (hfail : train_model C
        (s.preferences ++ (pairs.zip labels).filter (fun r => isValidLabel r.2))
        (C.transform s.scaler s.features) = .error e) :
    ∃ s', add_preferences C s pairs labels = .error (e, s') ∧
      s'.model = s.model ∧ s'.likelihood = s.likelihood ∧
      s'.ranking_history = s.ranking_history ∧
      s'.iteration = s.iteration := by
  refine ⟨{ s with
      preferences := s.preferences ++ (pairs.zip labels).filter
        (fun r => isValidLabel r.2),
      strategy_scaler := some s.scaler }, ?_, rfl, rfl, rfl, rfl⟩
  have hlen0 : ¬ (s.preferences ++ (pairs.zip labels).filter
      (fun r => isValidLabel r.2)).length = 0 := by
    simpa [List.length_eq_zero] using hne
  have hretr : retrain C
      { s with
        preferences := s.preferences ++ (pairs.zip labels).filter
                         (fun r => isValidLabel r.2) } =
      ({ s with
         preferences := s.preferences ++ (pairs.zip labels).filter
                          (fun r => isValidLabel r.2),
         strategy_scaler := some s.scaler }, some e) := by
    simp only [retrain, gpstrategy_train]
    rw [if_neg hlen0]
    rw [show (train_model C
        (s.preferences ++ (pairs.zip labels).filter (fun r => isValidLabel r.2))
        (C.transform s.scaler s.features)) = Except.error e from hfail]
  simp only [add_preferences]
  rw [if_neg (fun h => h hlen), hretr]

/-- Witness for C7: a trained loop whose training pipeline raises on the
next batch keeps its model, likelihood, history and iteration counter. -/
theorem add_preferences_atomic_on_train_failure_witness :
    ∃ s', add_preferences trivCollabFail
        (baseState [((0, 1), 1)] 3 [snapOf [0]] (some ()) 100 5 4 5)
        [(1, 2)] [0] = .error (.other "training diverged", s') ∧
      s'.model = (baseState [((0, 1), 1)] 3 [snapOf [0]] (some ()) 100 5 4 5).model ∧
      s'.likelihood =
        (baseState [((0, 1), 1)] 3 [snapOf [0]] (some ()) 100 5 4 5).likelihood ∧
      s'.ranking_history =
        (baseState [((0, 1), 1)] 3 [snapOf [0]] (some ()) 100 5 4 5).ranking_history ∧
      s'.iteration =
        (baseState [((0, 1), 1)] 3 [snapOf [0]] (some ()) 100 5 4 5).iteration :=
  add_preferences_atomic_on_train_failure trivCollabFail
    (baseState [((0, 1), 1)] 3 [snapOf [0]] (some ()) 100 5 4 5)
    [(1, 2)] [0] (.other "training diverged") rfl (by decide) rfl

/-- C10: an `add_preferences` call finding the accumulated
valid-preference set empty (e.g. a first call carrying only ties) skips
the retrain silently instead of raising `InvalidInput`, increments the
iteration counter, and then raises the model-not-trained error from the
ranking step, leaving the counter incremented and the history without a
new snapshot. -/
theorem add_preferences_empty_prefs_raises {M L S α : Type}
    (C : Collab M L S α) (s : LoopState M L S α)
    (pairs : List (Nat × Nat)) (labels : List Int)
    (hlen : pairs.length = labels.length)
    (hempty : s.preferences = [])
    (huntrained : s.model = none)
    (hties : ∀ r ∈ pairs.zip labels, isValidLabel r.2 = false) :
    ∃ s', add_preferences C s pairs labels =
        .error (.valueError "Model not trained. Call train() first.", s') ∧
      s'.iteration = s.iteration + 1 ∧
      s'.ranking_history = s.ranking_history ∧
      s'.model = none := by
  have hvalid : (pairs.zip labels).filter (fun r => isValidLabel r.2) = [] := by
    rw [List.filter_eq_nil_iff]
    intro a ha
    simp [hties a ha]
  refine ⟨{ s with
      preferences := s.preferences ++ (pairs.zip labels).filter
                       (fun r => isValidLabel r.2),
      iteration := s.iteration + 1 }, ?_, rfl, rfl, huntrained⟩
  have hretr : retrain C
      { s with
        preferences := s.preferences ++ (pairs.zip labels).filter
                         (fun r => isValidLabel r.2) } =
      ({ s with
         preferences := s.preferences ++ (pairs.zip labels).filter
                          (fun r => isValidLabel r.2) }, none) := by
    simp only [retrain]
    rw [if_pos (by simp [hvalid, hempty])]
  simp only [add_preferences]
  rw [if_neg (fun h => h hlen), hretr]
  simp [gpstrategy_get_ranking, huntrained]

/-- Witness for C10: a fresh loop receiving only tie labels raises the
model-not-trained error with the iteration counter advanced and no
snapshot appended. -/
theorem add_preferences_empty_prefs_raises_witness :
    ∃ s', add_preferences trivCollab (baseState [] 7 [snapOf [0]] none 100 5 4 5)
        [(0, 1), (1, 2)] [2, 3] =
        .error (.valueError "Model not trained. Call train() first.", s') ∧
      s'.iteration = (baseState [] 7 [snapOf [0]] none 100 5 4 5).iteration + 1 ∧
      s'.ranking_history =
        (baseState [] 7 [snapOf [0]] none 100 5 4 5).ranking_history ∧
      s'.model = none :=
  add_preferences_empty_prefs_raises trivCollab
    (baseState [] 7 [snapOf [0]] none 100 5 4 5)
    [(0, 1), (1, 2)] [2, 3] rfl rfl rfl (by decide)

/-- C5: on a trained strategy, any exception from the acquisition
function's `acquire` is caught inside `select_pairs`, which still
returns (does not re-raise) exactly `n_pairs` pairs of two distinct
members of the candidate set, drawn by the uniform-random fallback. -/
theorem select_pairs_fallback {M L S α : Type} (C : Collab M L S α)
    (m : M) (l : L) (sc : S) (features : List (List ℚ))
    (acquisition_fn : AcquireFn M L) (n_pairs : Nat) (e : PyErr)
    (hch : Choose2Ok C.choose2) (hfeat : 2 ≤ features.length)
    (hfail : acquisition_fn m l (List.range features.length)
        (C.transform sc features) n_pairs = .error e) :
    ∃ pairs, select_pairs C (some m) (some l) (some sc) features
        acquisition_fn n_pairs = .ok pairs ∧
      pairs.length = n_pairs ∧
      ∀ pr ∈ pairs, pr.1 < features.length ∧ pr.2 < features.length ∧
        pr.1 ≠ pr.2 := by
  refine ⟨(List.range n_pairs).map
    (drawPair C.choose2 (List.range features.length)), ?_, by simp, ?_⟩
  · simp only [select_pairs]
    rw [hfail]
  · intro pr hpr
    simp only [List.mem_map] at hpr
    obtain ⟨k, -, hk⟩ := hpr
    subst hk
    exact drawPair_range_ok C.choose2 hch features.length k hfeat

/-- An acquisition function that always raises (e.g. on a degenerate
posterior). -/
def failingAcq : AcquireFn Unit Unit :=
  fun _ _ _ _ _ => .error (.other "degenerate posterior")

/-- Witness for C5: with an always-raising acquisition function,
`select_pairs` still returns 3 valid pairs over 4 candidates. -/
theorem select_pairs_fallback_witness :
    ∃ pairs, select_pairs trivCollab (some ()) (some ()) (some ())
        [[0], [0], [0], [0]] failingAcq 3 = .ok pairs ∧
      pairs.length = 3 ∧
      ∀ pr ∈ pairs, pr.1 < ([[0], [0], [0], [0]] : List (List ℚ)).length ∧
        pr.2 < ([[0], [0], [0], [0]] : List (List ℚ)).length ∧ pr.1 ≠ pr.2 :=
  select_pairs_fallback trivCollab () () () [[0], [0], [0], [0]] failingAcq 3
    (.other "degenerate posterior") trivChoose2Ok (by decide) rfl

/-- C8: `get_next_batch` bypasses the configured acquisition function and
selects random pairs over the full candidate set `0..n_masks-1` whenever
the strategy has never been trained (in particular on the very first
call); once a model exists and the iteration counter is positive it
delegates to the configured function through `select_pairs`. -/
theorem get_next_batch_policy {M L S α : Type} (C : Collab M L S α)
    (s : LoopState M L S α) (acquisition_fn : AcquireFn M L)
    (n_pairs_arg : Option Nat)
    (hch : Choose2Ok C.choose2) (hn : 2 ≤ s.n_masks) :
    (s.model = none →
      get_next_batch C s acquisition_fn n_pairs_arg =
        .ok (random_acquire C.choose2 (List.range s.n_masks)
          (n_pairs_arg.getD s.n_pairs_per_iteration)) ∧
      (random_acquire C.choose2 (List.range s.n_masks)
          (n_pairs_arg.getD s.n_pairs_per_iteration)).length =
        n_pairs_arg.getD s.n_pairs_per_iteration ∧
      ∀ pr ∈ random_acquire C.choose2 (List.range s.n_masks)
          (n_pairs_arg.getD s.n_pairs_per_iteration),
        pr.1 < s.n_masks ∧ pr.2 < s.n_masks ∧ pr.1 ≠ pr.2) ∧
    (∀ m, s.model = some m → 0 < s.iteration →
      get_next_batch C s acquisition_fn n_pairs_arg =
        select_pairs C s.model s.likelihood s.strategy_scaler s.features
          acquisition_fn (n_pairs_arg.getD s.n_pairs_per_iteration)) := by
  constructor
  · intro hnone
    refine ⟨?_, by simp [random_acquire], ?_⟩
    · simp [get_next_batch, isTrained, hnone]
    · intro pr hpr
      simp only [random_acquire, List.mem_map] at hpr
      obtain ⟨k, -, hk⟩ := hpr
      subst hk
      exact drawPair_range_ok C.choose2 hch s.n_masks k hn
  · intro m hm hiter
    have h0 : ¬ s.iteration = 0 := by omega
    simp [get_next_batch, isTrained, hm, h0]

/-- Witness for C8: an untrained loop yields the random batch with valid
pairs; a trained loop at positive iteration delegates to the configured
function. -/
theorem get_next_batch_policy_witness :
    (get_next_batch trivCollab (baseState [] 0 [] none 100 5 4 5) failingAcq
        (some 3) =
      .ok (random_acquire trivCollab.choose2 (List.range 4) 3) ∧
     (random_acquire trivCollab.choose2 (List.range 4) 3).length = 3 ∧
     ∀ pr ∈ random_acquire trivCollab.choose2 (List.range 4) 3,
       pr.1 < 4 ∧ pr.2 < 4 ∧ pr.1 ≠ pr.2) ∧
    get_next_batch trivCollab (baseState [] 2 [] (some ()) 100 5 4 5) failingAcq
        (some 3) =
      select_pairs trivCollab (some ()) (some ()) (some ()) [[0], [0], [0], [0]]
        failingAcq 3 := by
  constructor
  · exact (get_next_batch_policy trivCollab (baseState [] 0 [] none 100 5 4 5)
      failingAcq (some 3) trivChoose2Ok (by decide)).1 rfl
  · exact (get_next_batch_policy trivCollab (baseState [] 2 [] (some ()) 100 5 4 5)
      failingAcq (some 3) trivChoose2Ok (by decide)).2 () rfl (by decide)

/-- A single `add_preferences` call — whether it returns or raises at any
of its raise sites — never writes the loop's `features` or `scaler`
fields. -/
theorem afterCall_features_scaler {M L S α : Type} (C : Collab M L S α)
    (s : LoopState M L S α) (pairs : List (Nat × Nat)) (labels : List Int) :
    (afterCall (add_preferences C s pairs labels)).features = s.features ∧
    (afterCall (add_preferences C s pairs labels)).scaler = s.scaler := by
  by_cases hlen : pairs.length = labels.length
  · simp only [add_preferences]
    rw [if_neg (fun h => h hlen)]
    obtain ⟨sc, m, l, hshape⟩ := retrain_shape C
      { s with preferences :=
          s.preferences ++ (pairs.zip labels).filter (fun r => isValidLabel r.2) }
    split
    · rw [afterCall, hshape]
      exact ⟨rfl, rfl⟩
    · split
      · rw [afterCall, hshape]
        exact ⟨rfl, rfl⟩
      · rw [afterCall, hshape]
        exact ⟨rfl, rfl⟩
  · rw [add_preferences, if_pos hlen]
    exact ⟨rfl, rfl⟩

/-- Any number of `add_preferences` calls leaves `features` and `scaler`
unchanged. -/
theorem run_calls_features_scaler {M L S α : Type} (C : Collab M L S α) :
    ∀ (calls : List (List (Nat × Nat) × List Int)) (s : LoopState M L S α),
      (run_calls C s calls).features = s.features ∧
      (run_calls C s calls).scaler = s.scaler
  | [], s => ⟨rfl, rfl⟩
  | c :: rest, s => by
    have h1 := afterCall_features_scaler C s c.1 c.2
    have h2 := run_calls_features_scaler C rest
      (afterCall (add_preferences C s c.1 c.2))
    rw [run_calls]
    exact ⟨h2.1.trans h1.1, h2.2.trans h1.2⟩

/-- C9: the feature matrix and the scaler computed at loop construction
are an invariant of the session: after any sequence of
`add_preferences` calls (raising or not) they are exactly the values
`fit`-ted and `transform`-ed once from the initial batch. -/
theorem scaler_and_features_frozen {M L S α : Type} (C : Collab M L S α)
    (raw : List (List ℚ)) (mi np w th tk : Nat)
    (calls : List (List (Nat × Nat) × List Int)) :
    (run_calls C (init_loop C raw mi np w th tk) calls).features =
        C.transform (C.fitScaler raw) raw ∧
    (run_calls C (init_loop C raw mi np w th tk) calls).scaler =
        C.fitScaler raw := by
  have h := run_calls_features_scaler C calls (init_loop C raw mi np w th tk)
  exact ⟨h.1, h.2⟩

/-- Witness for C9 at a concrete two-call session (one call raising on
ties, one succeeding). -/
theorem scaler_and_features_frozen_witness :
    (run_calls trivCollab (init_loop trivCollab [[1], [2], [3]] 50 10 5 4 5)
        [([(0, 1)], [2]), ([(0, 1)], [1])]).features =
      trivCollab.transform (trivCollab.fitScaler [[1], [2], [3]]) [[1], [2], [3]] ∧
    (run_calls trivCollab (init_loop trivCollab [[1], [2], [3]] 50 10 5 4 5)
        [([(0, 1)], [2]), ([(0, 1)], [1])]).scaler =
      trivCollab.fitScaler [[1], [2], [3]] :=
  scaler_and_features_frozen trivCollab [[1], [2], [3]] 50 10 5 4 5
    [([(0, 1)], [2]), ([(0, 1)], [1])]

/-- C4 (code defect): `UCBAcquisition.acquire` receives its candidates as
a Python `list` from every caller in the tree (`select_pairs` builds
`list(range(len(features)))`), so the reordering step
`candidates[np.argsort(-ucb_scores)]` raises `TypeError` instead of
restricting to the top `2*n_pairs` UCB scorers and returning pairs;
evaluated here on four candidates with `n_pairs = 2`, `beta = 2`. -/
theorem ucb_acquire_list_candidates_type_error :
    ucb_acquire trivCollab () () (PySeq.pylist [0, 1, 2, 3])
        [[0], [0], [0], [0]] 2 2 trivCollab.choose2 =
      .error (.typeError
        "only integer scalar arrays can be converted to a scalar index") := rfl

/-- C1: the loop is converged exactly under the spec's rule — iteration
cap reached, or at least `convergence_window` snapshots exist and at
least `top_k` distinct candidates appear in at least
`convergence_threshold` of the last `convergence_window` top-K lists
(top-K lists are duplicate-free, being prefixes of permutations, and a
positive window is assumed); in the concrete scenario with window 3,
threshold 2, top-K 2 and histories `[1,2]`, `[1,3]`, `[1,2]` the
detector reports converged; and with `max_iterations = 5` any
successful 5th `add_preferences` call makes `has_converged` true. -/
theorem convergence_rule :
    (∀ (M L S α : Type) (s : LoopState M L S α),
      0 < s.convergence_window →
      (∀ h ∈ s.ranking_history, h.top_k.Nodup) →
      (check_convergence s = true ↔
        s.max_iterations ≤ s.iteration ∨
          (s.convergence_window ≤ s.ranking_history.length ∧
            s.top_k ≤ specStableCount
              (lastN s.convergence_window
                (s.ranking_history.map (fun h => h.top_k)))
              s.convergence_threshold))) ∧
    check_convergence convergenceScenarioState = true ∧
    (∀ (M L S α : Type) (C : Collab M L S α) (s : LoopState M L S α)
      (pairs : List (Nat × Nat)) (labels : List Int)
      (s' : LoopState M L S α),
      s.max_iterations = 5 → s.iteration = 4 →
      add_preferences C s pairs labels = .ok s' →
      has_converged s' = true) := by
  refine ⟨?_, by decide, ?_⟩
  · intro M L S α s hwin hnodup
    simp only [check_convergence]
    by_cases hmax : s.max_iterations ≤ s.iteration
    · simp [hmax]
    · rw [if_neg hmax]
      by_cases hlt : s.ranking_history.length < s.convergence_window
      · rw [if_pos hlt]
        constructor
        · intro h
          simp at h
        · rintro (h | ⟨h, -⟩)
          · exact absurd h hmax
          · omega
      · rw [if_neg hlt, if_neg (by omega : ¬ s.convergence_window = 0),
          decide_eq_true_eq]
        rw [show (s.ranking_history.drop
            (s.ranking_history.length - s.convergence_window)).map
              (fun h => h.top_k) =
            lastN s.convergence_window
              (s.ranking_history.map (fun h => h.top_k)) by
          rw [lastN, List.length_map, List.map_drop]]
        have hnodupLN : ∀ l ∈ lastN s.convergence_window
            (s.ranking_history.map (fun h => h.top_k)), l.Nodup := by
          intro l hl
          rw [lastN, List.length_map, ← List.map_drop] at hl
          simp only [List.mem_map] at hl
          obtain ⟨snap, hsnap, rfl⟩ := hl
          exact hnodup snap (List.mem_of_mem_drop hsnap)
        have hstable : (lastN s.convergence_window
              (s.ranking_history.map (fun h => h.top_k))).flatten.dedup.countP
              (fun c => s.convergence_threshold ≤
                (lastN s.convergence_window
                  (s.ranking_history.map (fun h => h.top_k))).flatten.count c) =
            specStableCount (lastN s.convergence_window
              (s.ranking_history.map (fun h => h.top_k)))
              s.convergence_threshold := by
          rw [specStableCount]
          refine List.countP_congr ?_
          intro c hc
          rw [count_flatten_eq_countP_mem c _ hnodupLN]
        rw [hstable]
        have hge : s.convergence_window ≤ s.ranking_history.length := by omega
        simp [hmax, hge]
  · intro M L S α C s pairs labels s' hmax5 hiter4 hok
    obtain ⟨-, hi, hmx, -, -, hconv⟩ := add_preferences_ok_fields C s pairs labels s' hok
    have hc : check_convergence s' = true := by
      simp only [check_convergence]
      rw [if_pos (by omega : s'.max_iterations ≤ s'.iteration)]
    show s'.converged = true
    rw [hconv, hc]

/-- Witness for C1: the rule instantiated at the concrete scenario state,
and a concrete successful 5th call (from iteration 4 with
`max_iterations = 5`) that flips `has_converged`. -/
theorem convergence_rule_witness :
    (check_convergence convergenceScenarioState = true ↔
      convergenceScenarioState.max_iterations ≤
          convergenceScenarioState.iteration ∨
        (convergenceScenarioState.convergence_window ≤
            convergenceScenarioState.ranking_history.length ∧
          convergenceScenarioState.top_k ≤ specStableCount
            (lastN convergenceScenarioState.convergence_window
              (convergenceScenarioState.ranking_history.map (fun h => h.top_k)))
            convergenceScenarioState.convergence_threshold)) ∧
    (∃ s', add_preferences trivCollab (baseState [] 4 [] none 5 3 2 2)
        [(0, 1)] [1] = .ok s' ∧ has_converged s' = true) := by
  constructor
  · exact convergence_rule.1 Unit Unit Unit Unit convergenceScenarioState
      (by decide) (by decide)
  · exact ⟨_, rfl, convergence_rule.2.2 Unit Unit Unit Unit trivCollab
      (baseState [] 4 [] none 5 3 2 2) [(0, 1)] [1] _ rfl rfl rfl⟩
